import Mathlib

/-!
Verification of the datamart metadata-index and augmentation engine.

The definitions below are a shallow embedding of `src/datamart/index_builder.py`
and `src/datamart/augment.py`.  External collaborators that live outside the
sources (the elasticsearch managers, `Utils`, the metadata classes, the profiler
and the joiner registry) are modelled from the specification, each marked with a
doc comment; the control flow of `IndexBuilder` and `Augment` themselves follows
the Python sources statement by statement.
-/

namespace Datamart

/-- `GLOBAL_INDEX_INTERVAL = 10000` at the top of `index_builder.py`. -/
def GLOBAL_INDEX_INTERVAL : Int := 10000

/-- A pandas `DataFrame`: column labels plus row-major cell values. -/
structure DataFrame where
  columns : List String
  rows : List (List String)
deriving Repr, DecidableEq

/-- `data.shape[1]`, the number of columns. -/
def DataFrame.ncols (df : DataFrame) : Nat := df.columns.length

/-- Python exceptions that the embedded code can raise. -/
inductive PyError where
  | valueError (msg : String)
  | typeError (msg : String)
  | schemaInvalid
  | other (msg : String)
deriving Repr, DecidableEq

instance {ε α : Type} [DecidableEq ε] [DecidableEq α] : DecidableEq (Except ε α) := by
  intro x y
  cases x <;> cases y
  case error.error a b =>
    by_cases h : a = b
    · exact isTrue (by rw [h])
    · exact isFalse (by intro he; cases he; exact h rfl)
  case ok.ok a b =>
    by_cases h : a = b
    · exact isTrue (by rw [h])
    · exact isFalse (by intro he; cases he; exact h rfl)
  case error.ok a b => exact isFalse (by intro he; cases he)
  case ok.error a b => exact isFalse (by intro he; cases he)

/-- `not data` in Python where `data : Optional[DataFrame]`: `not None` is `True`,
while `bool(df)` on a pandas DataFrame raises `ValueError` unconditionally. -/
def pyNotData : Option DataFrame → Except PyError Bool
  | none => Except.ok true
  | some _ =>
      Except.error (PyError.valueError "The truth value of a DataFrame is ambiguous.")

/-- Python falsiness of an `Optional[int]`: `None` and `0` are falsy. -/
def pyFalsyOptInt : Option Int → Bool
  | none => true
  | some n => n == 0

/-- Python truthiness of an `Optional[int]`. -/
def pyTruthyOptInt : Option Int → Bool
  | none => false
  | some n => n != 0

/-- Python truthiness of an `Optional[str]`: `None` and `""` are falsy. -/
def pyTruthyOptStr : Option String → Bool
  | none => false
  | some s => s != ""

/-- Python truthiness of an optional list: `None` and `[]` are falsy. -/
def pyTruthyOptList {α : Type} : Option (List α) → Bool
  | none => false
  | some l => !l.isEmpty

/-- A parsed description json.  `variables` is `description["variables"]`
(each entry abstracted to its name) and `valid` records whether
`Utils.validate_schema(description)` passes. -/
structure Description where
  vars : List String
  valid : Bool
deriving Repr, DecidableEq

/-- Variable (column) metadata: its datamart id plus a flag recording whether
per-column profiling statistics were attached. -/
structure VariableMetadata where
  datamart_id : Int
  profiled : Bool
deriving Repr, DecidableEq

/-- Global (dataset) metadata: its datamart id, the ordered variable metadata
list, and a flag recording whether dataset-level profiling ran. -/
structure GlobalMetadata where
  datamart_id : Int
  vars : List VariableMetadata
  profiledEntire : Bool
deriving Repr, DecidableEq

/-- Modelled from the spec: `GlobalMetadata.construct_global` (class not under
`src/`) builds the global metadata shell from the description fields with the
given datamart id and an empty variable sequence. -/
def GlobalMetadata.construct_global (_description : Description) (datamart_id : Int) :
    GlobalMetadata :=
  { datamart_id := datamart_id, vars := [], profiledEntire := false }

/-- Modelled from the spec: appending one variable metadata record keeps
insertion order equal to column order. -/
def GlobalMetadata.add_variable_metadata (g : GlobalMetadata) (v : VariableMetadata) :
    GlobalMetadata :=
  { g with vars := g.vars ++ [v] }

/-- Modelled from the spec: `VariableMetadata.construct_variable` (class not
under `src/`) builds one column record carrying the given datamart id. -/
def VariableMetadata.construct_variable (_description : String) (datamart_id : Int) :
    VariableMetadata :=
  { datamart_id := datamart_id, profiled := false }

/-- Modelled from the spec: the profiler attaches column statistics to a
variable record without altering its id. -/
def basic_profiling_column (v : VariableMetadata) : VariableMetadata :=
  { v with profiled := true }

/-- Modelled from the spec: the profiler attaches dataset-level statistics to a
global record without altering ids. -/
def basic_profiling_entire (g : GlobalMetadata) : GlobalMetadata :=
  { g with profiledEntire := true }

/-- The mutable state of an `IndexBuilder`: `self.current_global_index`,
`None` until synchronized from the store. -/
structure IndexBuilderState where
  current_global_index : Option Int
deriving Repr, DecidableEq

/-- `IndexBuilder.construct_variable_metadata`: the column id is
`col_offset + global_datamart_id + 1`; per-column profiling runs only when
data is present. -/
def construct_variable_metadata (description : String) (global_datamart_id : Int)
    (col_offset : Nat) (data : Option DataFrame) : VariableMetadata :=
  let variable_metadata :=
    VariableMetadata.construct_variable description
      ((col_offset : Int) + global_datamart_id + 1)
  match data with
  | some _ => basic_profiling_column variable_metadata
  | none => variable_metadata

/-- The `for col_offset, variable_description in enumerate(...)` loop of
`construct_global_metadata`: add one variable record per description fragment,
advancing the offset. -/
def add_variables (datamart_id : Int) (data : Option DataFrame) :
    GlobalMetadata → Nat → List String → GlobalMetadata
  | g, _, [] => g
  | g, off, vd :: rest =>
      add_variables datamart_id data
        (g.add_variable_metadata (construct_variable_metadata vd datamart_id off data))
        (off + 1) rest

/-- Lines 249-253 of `construct_global_metadata`: `if not
overwrite_datamart_id` (so `None` and `0` alike) advances the counter by the
interval and uses the new value (raising as Python would if the counter is
still `None`); otherwise the supplied id is used. -/
def allocate_datamart_id (st : IndexBuilderState) (overwrite_datamart_id : Option Int) :
    Except PyError (IndexBuilderState × Int) :=
  if pyFalsyOptInt overwrite_datamart_id then
    match st.current_global_index with
    | none =>
        Except.error
          (PyError.typeError "unsupported operand types for +=: NoneType and int")
    | some c =>
        Except.ok
          (({ current_global_index := some (c + GLOBAL_INDEX_INTERVAL) } :
              IndexBuilderState),
           c + GLOBAL_INDEX_INTERVAL)
  else
    Except.ok (st, overwrite_datamart_id.getD 0)

/-- The rest of `construct_global_metadata` once the datamart id is fixed:
build the shell, add one variable record per column, and run dataset-level
profiling when data is present. -/
def construct_global_body (description : Description) (data : Option DataFrame)
    (datamart_id : Int) : GlobalMetadata :=
  let global_metadata := GlobalMetadata.construct_global description datamart_id
  let global_metadata :=
    if description.vars ≠ [] then
      add_variables datamart_id data global_metadata 0 description.vars
    else
      match data with
      | some df =>
          add_variables datamart_id data global_metadata 0 (List.replicate df.ncols "")
      | none => global_metadata
  match data with
  | some _ => basic_profiling_entire global_metadata
  | none => global_metadata

/-- `IndexBuilder.construct_global_metadata`, assembled from the allocation
step and the construction body. -/
def construct_global_metadata (st : IndexBuilderState) (description : Description)
    (data : Option DataFrame) (overwrite_datamart_id : Option Int) :
    Except PyError (IndexBuilderState × GlobalMetadata) :=
  match allocate_datamart_id st overwrite_datamart_id with
  | Except.error e => Except.error e
  | Except.ok (st, datamart_id) =>
      Except.ok (st, construct_global_body description data datamart_id)

/-- The number of columns the constructor iterates over: the declared variables
when non-empty, else the data's physical columns, else zero. -/
def columnCount (description : Description) (data : Option DataFrame) : Nat :=
  if description.vars ≠ [] then description.vars.length
  else
    match data with
    | some df => df.ncols
    | none => 0

/-- A persistence side effect of the indexing pipeline: the two-line mirror
file write (`_save_data`), the store create (`im.create_doc`) and the store
update (`im.update_doc`), each keyed by the record's datamart id. -/
inductive Effect where
  | saveToFile (id : Int)
  | createDoc (id : Int)
  | updateDoc (id : Int)
deriving Repr, DecidableEq

/-- Outcome of one `indexing`/`updating` call: the persistence effects that
were performed before returning or raising, and either the final builder state
with the metadata, or the Python exception that escaped. -/
structure IndexingResult where
  effects : List Effect
  outcome : Except PyError (IndexBuilderState × GlobalMetadata)
deriving Repr, DecidableEq

/-- Lines 64-65 of `indexing`: `if not self.current_global_index or
delete_old_es_index: self.current_global_index = im.current_global_datamart_id(...)`.
`store_max` is the id the store reports. -/
def synced (store_max : Int) (delete_old_es_index : Bool) (st : IndexBuilderState) :
    IndexBuilderState :=
  if pyFalsyOptInt st.current_global_index || delete_old_es_index then
    { current_global_index := some store_max }
  else st

/-- `IndexBuilder.profile`: returns the metadata unchanged (lines 312-329). -/
def profile (_data : DataFrame) (metadata : GlobalMetadata) : GlobalMetadata :=
  metadata

/-- `IndexBuilder.indexing`.  `validate_meta` abstracts
`Utils.validate_schema` on the constructed metadata and `materialize`
abstracts `Utils.materialize` (both outside `src/`); `data_at_path` is the
dataframe `pd.read_csv` yields for `data_path` when one is supplied.
Mirrors lines 60-87: sync the counter, `_read_data` (description schema
validation, then csv read), the `not data and query_data_for_indexing` test
(whose `not data` raises on a DataFrame), materialization with a caught
failure, metadata construction, profiling, metadata schema validation, the
optional mirror-file write and the store create. -/
def indexing (validate_meta : GlobalMetadata → Bool)
    (materialize : Description → Except PyError DataFrame)
    (store_max : Int) (st : IndexBuilderState) (description : Description)
    (data_at_path : Option DataFrame) (query_data_for_indexing : Bool)
    (save_to_file : Bool) (delete_old_es_index : Bool) : IndexingResult :=
  let st := synced store_max delete_old_es_index st
  if !description.valid then
    { effects := [], outcome := Except.error PyError.schemaInvalid }
  else
    let data := data_at_path
    match pyNotData data with
    | Except.error e => { effects := [], outcome := Except.error e }
    | Except.ok nd =>
      let data :=
        if nd && query_data_for_indexing then
          match materialize description with
          | Except.ok df => some df
          | Except.error _ => data
        else data
      match construct_global_metadata st description data none with
      | Except.error e => { effects := [], outcome := Except.error e }
      | Except.ok (st, metadata) =>
        let metadata :=
          match data with
          | some df => profile df metadata
          | none => metadata
        if !validate_meta metadata then
          { effects := [], outcome := Except.error PyError.schemaInvalid }
        else
          { effects :=
              (if save_to_file then [Effect.saveToFile metadata.datamart_id] else []) ++
                [Effect.createDoc metadata.datamart_id],
            outcome := Except.ok (st, metadata) }

/-- `IndexBuilder.updating` (lines 89-135): like `indexing` but with no
counter resync, `overwrite_datamart_id := document_id`, and a store update
instead of a create. -/
def updating (validate_meta : GlobalMetadata → Bool)
    (materialize : Description → Except PyError DataFrame)
    (st : IndexBuilderState) (description : Description) (document_id : Int)
    (data_at_path : Option DataFrame) (query_data_for_updating : Bool) :
    IndexingResult :=
  if !description.valid then
    { effects := [], outcome := Except.error PyError.schemaInvalid }
  else
    let data := data_at_path
    match pyNotData data with
    | Except.error e => { effects := [], outcome := Except.error e }
    | Except.ok nd =>
      let data :=
        if nd && query_data_for_updating then
          match materialize description with
          | Except.ok df => some df
          | Except.error _ => data
        else data
      match construct_global_metadata st description data (some document_id) with
      | Except.error e => { effects := [], outcome := Except.error e }
      | Except.ok (st, metadata) =>
        if !validate_meta metadata then
          { effects := [], outcome := Except.error PyError.schemaInvalid }
        else
          { effects := [Effect.updateDoc metadata.datamart_id],
            outcome := Except.ok (st, metadata) }

/-- `IndexBuilder.bulk_indexing` (lines 137-175): one `indexing` call per
description file (paired with its optional data file), with no exception
handling around the loop body — an exception escaping `indexing` propagates
and ends the loop.  Returns the accumulated effects and either the final
builder state or the escaped exception. -/
def bulk_indexing (validate_meta : GlobalMetadata → Bool)
    (materialize : Description → Except PyError DataFrame)
    (store_max : Int) (query_data_for_indexing : Bool) (save_to_file : Bool)
    (st : IndexBuilderState) :
    List (Description × Option DataFrame) →
      List Effect × Except PyError IndexBuilderState
  | [] => ([], Except.ok st)
  | (description, data_at_path) :: rest =>
    let r := indexing validate_meta materialize store_max st description data_at_path
      query_data_for_indexing save_to_file false
    match r.outcome with
    | Except.error e => (r.effects, Except.error e)
    | Except.ok (st', _) =>
      let tail := bulk_indexing validate_meta materialize store_max
        query_data_for_indexing save_to_file st' rest
      (r.effects ++ tail.1, tail.2)

/-- Modelled from the spec: the individual query clauses the `QueryManager`
(not under `src/`) builds, one per criterion recognized by `Augment.query`. -/
inductive QueryClause where
  | match_any (query_string : String)
  | match_temporal_coverage (start stop : Option String)
  | match_global_datamart_id (id : Int)
  | match_variable_datamart_id (id : Int)
  | match_key_value_pairs (kv : List (String × String))
  | match_some_terms_from_variables_array (terms : List String)
      (minimum_should_match : Option Rat)
deriving Repr, DecidableEq

/-- Modelled from the spec: the compiled query value handed to the store —
either the match-everything query (`qm.match_all()`) or the conjunction of the
collected clauses (`qm.form_conjunction_query(queries)`). -/
inductive ESQuery where
  | match_all
  | form_conjunction_query (clauses : List QueryClause)
deriving Repr, DecidableEq

/-- `col.unique().tolist()` on a pandas Series of values. -/
def seriesUnique (col : List String) : List String := col.eraseDups

/-- `Augment.query` (augment.py lines 28-93), as a compiler from the optional
criteria to the query body the store would execute: each truthy criterion
appends its clause in source order; `if not queries: return self._query_all()`
compiles the empty criteria set to the match-everything query. -/
def Augment.query (col : Option (List String))
    (minimum_should_match_ratio_for_col : Option Rat)
    (query_string : Option String)
    (temporal_coverage_start temporal_coverage_end : Option String)
    (global_datamart_id variable_datamart_id : Option Int)
    (key_value_pairs : Option (List (String × String))) : ESQuery :=
  let queries : List QueryClause := []
  let queries :=
    if pyTruthyOptStr query_string then
      queries ++ [QueryClause.match_any (query_string.getD "")]
    else queries
  let queries :=
    if pyTruthyOptStr temporal_coverage_start || pyTruthyOptStr temporal_coverage_end then
      queries ++
        [QueryClause.match_temporal_coverage temporal_coverage_start temporal_coverage_end]
    else queries
  let queries :=
    if pyTruthyOptInt global_datamart_id then
      queries ++ [QueryClause.match_global_datamart_id (global_datamart_id.getD 0)]
    else queries
  let queries :=
    if pyTruthyOptInt variable_datamart_id then
      queries ++ [QueryClause.match_variable_datamart_id (variable_datamart_id.getD 0)]
    else queries
  let queries :=
    if pyTruthyOptList key_value_pairs then
      queries ++ [QueryClause.match_key_value_pairs (key_value_pairs.getD [])]
    else queries
  let queries :=
    match col with
    | some c =>
        queries ++
          [QueryClause.match_some_terms_from_variables_array (seriesUnique c)
            minimum_should_match_ratio_for_col]
    | none => queries
  if queries.isEmpty then ESQuery.match_all
  else ESQuery.form_conjunction_query queries

/-- Modelled from the spec: a pluggable join strategy satisfying the join
contract; its `join` method may raise. -/
structure Joiner where
  join : DataFrame → DataFrame → List (List Int) → List (List Int) →
    Option GlobalMetadata → Option GlobalMetadata → Except PyError DataFrame

/-- The `self.joiners` cache of an `Augment` instance: strategy name to the
prepared joiner, `none` recording that `JoinerPrepare.prepare_joiner`
returned no implementation for that name. -/
structure AugmentState where
  joiners : List (String × Option Joiner)

/-- Outcome of one `Augment.join` call: the updated cache, whether the
no-suitable-joiner warning was emitted, and the returned table or the escaped
exception. -/
structure JoinResult where
  state : AugmentState
  warned : Bool
  outcome : Except PyError DataFrame

/-- `Augment.join` (augment.py lines 117-163).  `registry` abstracts
`JoinerPrepare.prepare_joiner` (not under `src/`), which per the spec resolves
a strategy by name and yields nothing for an unregistered name; `gen_meta`
abstracts `Utils.generate_metadata_from_dataframe` and `features` abstracts
`Utils.calculate_dsbox_features` (both outside `src/`, both modelled from the
spec as total, side-effect-free on the tables).  A cache miss stores the
registry's answer; a cached `None` joiner warns and returns `left_df`
unchanged; otherwise the call delegates to the strategy's `join`, whose
outcome — including any exception — is returned as is. -/
def Augment.join (registry : String → Option Joiner)
    (gen_meta : DataFrame → GlobalMetadata)
    (features : DataFrame → Option GlobalMetadata → Option GlobalMetadata)
    (st : AugmentState) (left_df right_df : DataFrame)
    (left_columns right_columns : List (List Int))
    (left_metadata right_metadata : Option GlobalMetadata)
    (joiner : String) : JoinResult :=
  let st :=
    if (st.joiners.lookup joiner).isNone then
      { joiners := st.joiners ++ [(joiner, registry joiner)] }
    else st
  match (st.joiners.lookup joiner).getD none with
  | none => { state := st, warned := true, outcome := Except.ok left_df }
  | some j =>
    let left_metadata :=
      match left_metadata with
      | none => some (gen_meta left_df)
      | some m => some m
    let left_metadata := features left_df left_metadata
    let right_metadata := features right_df right_metadata
    { state := st, warned := false,
      outcome := j.join left_df right_df left_columns right_columns
        left_metadata right_metadata }

/-! ### Helper lemmas -/

theorem add_variables_datamart_id (D : Int) (data : Option DataFrame) :
    ∀ (l : List String) (g : GlobalMetadata) (off : Nat),
      (add_variables D data g off l).datamart_id = g.datamart_id := by
  intro l
  induction l with
  | nil => intro g off; rfl
  | cons vd rest ih => intro g off; rw [add_variables, ih]; rfl

theorem construct_variable_metadata_id (vd : String) (D : Int) (off : Nat)
    (data : Option DataFrame) :
    (construct_variable_metadata vd D off data).datamart_id = (off : Int) + D + 1 := by
  cases data <;> rfl

theorem add_variables_ids (D : Int) (data : Option DataFrame) :
    ∀ (l : List String) (g : GlobalMetadata) (off : Nat),
      (add_variables D data g off l).vars.map VariableMetadata.datamart_id =
        g.vars.map VariableMetadata.datamart_id ++
          (List.range l.length).map (fun i => ((off + i : Nat) : Int) + D + 1) := by
  intro l
  induction l with
  | nil => intro g off; simp [add_variables]
  | cons vd rest ih =>
      intro g off
      have hfun : (fun i : Nat => ((off + i : Nat) : Int) + D + 1) ∘ Nat.succ =
          fun i : Nat => ((off + 1 + i : Nat) : Int) + D + 1 := by
        funext i
        simp only [Function.comp_apply]
        push_cast
        ring
      rw [add_variables, ih, List.length_cons, List.range_succ_eq_map, List.map_cons,
        List.map_map, hfun]
      simp [GlobalMetadata.add_variable_metadata, construct_variable_metadata_id]

theorem construct_global_body_datamart_id (description : Description)
    (data : Option DataFrame) (D : Int) :
    (construct_global_body description data D).datamart_id = D := by
  unfold construct_global_body
  cases data <;>
    simp [basic_profiling_entire, GlobalMetadata.construct_global,
      add_variables_datamart_id] <;>
    split <;>
    simp [add_variables_datamart_id, GlobalMetadata.construct_global]

theorem construct_global_body_ids (description : Description)
    (data : Option DataFrame) (D : Int) :
    (construct_global_body description data D).vars.map VariableMetadata.datamart_id =
      (List.range (columnCount description data)).map (fun i : Nat => (i : Int) + D + 1) := by
  have hzero : ∀ (dt : Option DataFrame) (l : List String),
      (add_variables D dt (GlobalMetadata.construct_global description D) 0 l).vars.map
          VariableMetadata.datamart_id =
        (List.range l.length).map (fun i : Nat => (i : Int) + D + 1) := by
    intro dt l
    rw [add_variables_ids]
    simp only [GlobalMetadata.construct_global, List.map_nil, List.nil_append]
    apply List.map_congr_left
    intro i _
    push_cast
    ring
  unfold construct_global_body columnCount
  by_cases hv : description.vars = []
  · cases data with
    | none => simp [hv, GlobalMetadata.construct_global]
    | some df => simp [hv, basic_profiling_entire, hzero, DataFrame.ncols]
  · cases data with
    | none => simp [hv, hzero]
    | some df => simp [hv, basic_profiling_entire, hzero]

/-! ### Claims -/

/-- Claim C3: for every dataset whose metadata is constructed with dataset id
`D` and whose column set has `k` columns (from `description.variables` or from
the data's columns), the `k` variable datamart ids are exactly
`{D+1, ..., D+k}`, assigned in column order: the i-th column (zero-based
offset `i`) receives id `i + D + 1`. -/
theorem claim_C3_variable_ids (st st' : IndexBuilderState) (description : Description)
    (data : Option DataFrame) (overwrite_datamart_id : Option Int) (md : GlobalMetadata)
    (h : construct_global_metadata st description data overwrite_datamart_id =
      Except.ok (st', md)) :
    md.vars.map VariableMetadata.datamart_id =
      (List.range (columnCount description data)).map
        (fun i : Nat => (i : Int) + md.datamart_id + 1) := by
  unfold construct_global_metadata at h
  cases halloc : allocate_datamart_id st overwrite_datamart_id with
  | error e => rw [halloc] at h; cases h
  | ok p =>
      obtain ⟨st1, D⟩ := p
      rw [halloc] at h
      simp only [Except.ok.injEq, Prod.mk.injEq] at h
      obtain ⟨h1, h2⟩ := h
      subst h2
      rw [construct_global_body_datamart_id]
      exact construct_global_body_ids description data D

theorem claim_C3_variable_ids_witness :
    construct_global_metadata ⟨some 0⟩ ⟨["a", "b", "c"], true⟩ none none =
      Except.ok (⟨some 10000⟩,
        ⟨10000, [⟨10001, false⟩, ⟨10002, false⟩, ⟨10003, false⟩], false⟩) ∧
    (⟨10000, [⟨10001, false⟩, ⟨10002, false⟩, ⟨10003, false⟩], false⟩ :
        GlobalMetadata).vars.map VariableMetadata.datamart_id =
      (List.range (columnCount ⟨["a", "b", "c"], true⟩ none)).map
        (fun i : Nat =>
          (i : Int) +
            (⟨10000, [⟨10001, false⟩, ⟨10002, false⟩, ⟨10003, false⟩], false⟩ :
              GlobalMetadata).datamart_id + 1) :=
  ⟨by decide, claim_C3_variable_ids ⟨some 0⟩ ⟨some 10000⟩ ⟨["a", "b", "c"], true⟩ none none
    ⟨10000, [⟨10001, false⟩, ⟨10002, false⟩, ⟨10003, false⟩], false⟩ (by decide)⟩

/-- Claim C4: two successive metadata constructions on the same builder
without an overwrite id assign ids that differ, the second exceeding the first
by exactly `GLOBAL_INDEX_INTERVAL` (default 10000); the counter strictly
increases by the interval on each allocation. -/
theorem claim_C4_successive_ids (st st1 st2 : IndexBuilderState) (c : Int)
    (d1 d2 : Description) (dt1 dt2 : Option DataFrame) (md1 md2 : GlobalMetadata)
    (hc : st.current_global_index = some c)
    (h1 : construct_global_metadata st d1 dt1 none = Except.ok (st1, md1))
    (h2 : construct_global_metadata st1 d2 dt2 none = Except.ok (st2, md2)) :
    md2.datamart_id = md1.datamart_id + GLOBAL_INDEX_INTERVAL ∧
    md1.datamart_id ≠ md2.datamart_id ∧
    st1.current_global_index = some md1.datamart_id ∧
    st2.current_global_index = some md2.datamart_id ∧
    GLOBAL_INDEX_INTERVAL = 10000 := by
  have ha1 : allocate_datamart_id st none =
      Except.ok (⟨some (c + GLOBAL_INDEX_INTERVAL)⟩, c + GLOBAL_INDEX_INTERVAL) := by
    simp [allocate_datamart_id, pyFalsyOptInt, hc]
  unfold construct_global_metadata at h1 h2
  rw [ha1] at h1
  simp only [Except.ok.injEq, Prod.mk.injEq] at h1
  obtain ⟨hst1, hmd1⟩ := h1
  subst hst1
  have ha2 : allocate_datamart_id
        (⟨some (c + GLOBAL_INDEX_INTERVAL)⟩ : IndexBuilderState) none =
      Except.ok (⟨some (c + GLOBAL_INDEX_INTERVAL + GLOBAL_INDEX_INTERVAL)⟩,
        c + GLOBAL_INDEX_INTERVAL + GLOBAL_INDEX_INTERVAL) := by
    simp [allocate_datamart_id, pyFalsyOptInt]
  rw [ha2] at h2
  simp only [Except.ok.injEq, Prod.mk.injEq] at h2
  obtain ⟨hst2, hmd2⟩ := h2
  subst hst2
  refine ⟨?_, ?_, ?_, ?_, rfl⟩
  · rw [← hmd1, ← hmd2, construct_global_body_datamart_id,
      construct_global_body_datamart_id]
  · rw [← hmd1, ← hmd2, construct_global_body_datamart_id,
      construct_global_body_datamart_id]
    simp [GLOBAL_INDEX_INTERVAL]
  · rw [← hmd1, construct_global_body_datamart_id]
  · rw [← hmd2, construct_global_body_datamart_id]

theorem claim_C4_successive_ids_witness :
    (⟨some 0⟩ : IndexBuilderState).current_global_index = some 0 ∧
    construct_global_metadata ⟨some 0⟩ ⟨["a"], true⟩ none none =
      Except.ok (⟨some 10000⟩, ⟨10000, [⟨10001, false⟩], false⟩) ∧
    construct_global_metadata ⟨some 10000⟩ ⟨["a"], true⟩ none none =
      Except.ok (⟨some 20000⟩, ⟨20000, [⟨20001, false⟩], false⟩) ∧
    ((⟨20000, [⟨20001, false⟩], false⟩ : GlobalMetadata).datamart_id =
        (⟨10000, [⟨10001, false⟩], false⟩ : GlobalMetadata).datamart_id +
          GLOBAL_INDEX_INTERVAL ∧
      (⟨10000, [⟨10001, false⟩], false⟩ : GlobalMetadata).datamart_id ≠
        (⟨20000, [⟨20001, false⟩], false⟩ : GlobalMetadata).datamart_id ∧
      (⟨some 10000⟩ : IndexBuilderState).current_global_index =
        some (⟨10000, [⟨10001, false⟩], false⟩ : GlobalMetadata).datamart_id ∧
      (⟨some 20000⟩ : IndexBuilderState).current_global_index =
        some (⟨20000, [⟨20001, false⟩], false⟩ : GlobalMetadata).datamart_id ∧
      GLOBAL_INDEX_INTERVAL = 10000) :=
  ⟨rfl, by decide, by decide,
    claim_C4_successive_ids ⟨some 0⟩ ⟨some 10000⟩ ⟨some 20000⟩ 0 ⟨["a"], true⟩
      ⟨["a"], true⟩ none none ⟨10000, [⟨10001, false⟩], false⟩
      ⟨20000, [⟨20001, false⟩], false⟩ rfl (by decide) (by decide)⟩

/-- Claim C10: `construct_global_metadata` with `overwrite_datamart_id = 0`
treats the overwrite id as absent: the counter is advanced by the interval and
the fresh id is assigned instead of the supplied id 0. -/
theorem claim_C10_overwrite_zero (st st' : IndexBuilderState) (c : Int)
    (description : Description) (data : Option DataFrame) (md : GlobalMetadata)
    (hc : st.current_global_index = some c)
    (h : construct_global_metadata st description data (some 0) =
      Except.ok (st', md)) :
    construct_global_metadata st description data (some 0) =
      construct_global_metadata st description data none ∧
    st'.current_global_index = some (c + GLOBAL_INDEX_INTERVAL) ∧
    md.datamart_id = c + GLOBAL_INDEX_INTERVAL := by
  have heq : construct_global_metadata st description data (some 0) =
      construct_global_metadata st description data none := by
    unfold construct_global_metadata allocate_datamart_id
    simp [pyFalsyOptInt]
  have ha : allocate_datamart_id st (some 0) =
      Except.ok (⟨some (c + GLOBAL_INDEX_INTERVAL)⟩, c + GLOBAL_INDEX_INTERVAL) := by
    simp [allocate_datamart_id, pyFalsyOptInt, hc]
  unfold construct_global_metadata at h
  rw [ha] at h
  simp only [Except.ok.injEq, Prod.mk.injEq] at h
  obtain ⟨hst, hmd⟩ := h
  refine ⟨heq, ?_, ?_⟩
  · rw [← hst]
  · rw [← hmd, construct_global_body_datamart_id]

theorem claim_C10_overwrite_zero_witness :
    (⟨some 0⟩ : IndexBuilderState).current_global_index = some 0 ∧
    construct_global_metadata ⟨some 0⟩ ⟨["a"], true⟩ none (some 0) =
      Except.ok (⟨some 10000⟩, ⟨10000, [⟨10001, false⟩], false⟩) ∧
    (construct_global_metadata ⟨some 0⟩ ⟨["a"], true⟩ none (some 0) =
        construct_global_metadata ⟨some 0⟩ ⟨["a"], true⟩ none none ∧
      (⟨some 10000⟩ : IndexBuilderState).current_global_index =
        some (0 + GLOBAL_INDEX_INTERVAL) ∧
      (⟨10000, [⟨10001, false⟩], false⟩ : GlobalMetadata).datamart_id =
        0 + GLOBAL_INDEX_INTERVAL) :=
  ⟨rfl, by decide, claim_C10_overwrite_zero ⟨some 0⟩ ⟨some 10000⟩ 0 ⟨["a"], true⟩ none
    ⟨10000, [⟨10001, false⟩], false⟩ rfl (by decide)⟩

/-- Claim C5: a call to `Augment.query` supplying no criterion (no column, no
query string, no temporal bounds, no global or variable id, no key/value
pairs) compiles to the match-everything query. -/
theorem claim_C5_empty_criteria_matches_all
    (minimum_should_match_ratio_for_col : Option Rat) :
    Augment.query none minimum_should_match_ratio_for_col none none none none none
        none =
      ESQuery.match_all := rfl

/-- Claim C2: whenever a non-`None` `data_path` is supplied, `_read_data`
yields a DataFrame and the `not data` truthiness test raises `ValueError`, so
both `indexing` and `updating` fail before any metadata is constructed or
persisted. -/
theorem claim_C2_data_supplied_never_completes
    (validate_meta : GlobalMetadata → Bool)
    (materialize : Description → Except PyError DataFrame)
    (store_max : Int) (st : IndexBuilderState) (description : Description)
    (df : DataFrame) (document_id : Int) (q s del : Bool)
    (hvalid : description.valid = true) :
    indexing validate_meta materialize store_max st description (some df) q s del =
      { effects := [],
        outcome := Except.error
          (PyError.valueError "The truth value of a DataFrame is ambiguous.") } ∧
    updating validate_meta materialize st description document_id (some df) q =
      { effects := [],
        outcome := Except.error
          (PyError.valueError "The truth value of a DataFrame is ambiguous.") } := by
  constructor <;> simp [indexing, updating, hvalid, pyNotData]

theorem claim_C2_data_supplied_never_completes_witness :
    (⟨["a"], true⟩ : Description).valid = true ∧
    (indexing (fun _ => true) (fun _ => Except.error (PyError.other "net")) 0
        ⟨some 0⟩ ⟨["a"], true⟩ (some ⟨["c"], [["v"]]⟩) true true true =
      { effects := [],
        outcome := Except.error
          (PyError.valueError "The truth value of a DataFrame is ambiguous.") } ∧
    updating (fun _ => true) (fun _ => Except.error (PyError.other "net"))
        ⟨some 0⟩ ⟨["a"], true⟩ 5 (some ⟨["c"], [["v"]]⟩) true =
      { effects := [],
        outcome := Except.error
          (PyError.valueError "The truth value of a DataFrame is ambiguous.") }) :=
  ⟨rfl, claim_C2_data_supplied_never_completes _ _ _ _ _ _ 5 _ _ _ rfl⟩

/-- Claim C8: with no data supplied and `query_data_for_indexing` true, a
materialization failure is non-fatal: the exception is caught, a warning is
emitted, and indexing continues, producing schema-only metadata from the
description alone (the construction with `data = none`). -/
theorem claim_C8_materialization_failure_nonfatal
    (validate_meta : GlobalMetadata → Bool)
    (materialize : Description → Except PyError DataFrame)
    (store_max : Int) (st stf : IndexBuilderState) (description : Description)
    (s del : Bool) (md : GlobalMetadata) (e : PyError)
    (hvalid : description.valid = true)
    (hmz : materialize description = Except.error e)
    (hcon : construct_global_metadata (synced store_max del st) description none none =
      Except.ok (stf, md))
    (hvm : validate_meta md = true) :
    indexing validate_meta materialize store_max st description none true s del =
      { effects := (if s then [Effect.saveToFile md.datamart_id] else []) ++
          [Effect.createDoc md.datamart_id],
        outcome := Except.ok (stf, md) } := by
  simp [indexing, hvalid, pyNotData, hmz, hcon, hvm]

theorem claim_C8_materialization_failure_nonfatal_witness :
    (⟨["a"], true⟩ : Description).valid = true ∧
    ((fun _ => Except.error (PyError.other "net down")) :
        Description → Except PyError DataFrame) ⟨["a"], true⟩ =
      Except.error (PyError.other "net down") ∧
    construct_global_metadata (synced 7 false ⟨none⟩) ⟨["a"], true⟩ none none =
      Except.ok (⟨some 10007⟩, ⟨10007, [⟨10008, false⟩], false⟩) ∧
    (fun _ : GlobalMetadata => true) ⟨10007, [⟨10008, false⟩], false⟩ = true ∧
    indexing (fun _ => true) (fun _ => Except.error (PyError.other "net down")) 7
        ⟨none⟩ ⟨["a"], true⟩ none true true false =
      { effects := (if true then [Effect.saveToFile
            (⟨10007, [⟨10008, false⟩], false⟩ : GlobalMetadata).datamart_id] else []) ++
          [Effect.createDoc
            (⟨10007, [⟨10008, false⟩], false⟩ : GlobalMetadata).datamart_id],
        outcome := Except.ok (⟨some 10007⟩, ⟨10007, [⟨10008, false⟩], false⟩) } :=
  ⟨rfl, rfl, by decide, rfl,
    claim_C8_materialization_failure_nonfatal (fun _ => true)
      (fun _ => Except.error (PyError.other "net down")) 7 ⟨none⟩ ⟨some 10007⟩
      ⟨["a"], true⟩ true false ⟨10007, [⟨10008, false⟩], false⟩
      (PyError.other "net down") rfl rfl (by decide) rfl⟩

/-- Claim C9: schema validation of the constructed metadata happens before any
persistence: when it fails, `indexing` ends with a `SchemaInvalid` error and
neither the mirror-file write nor the store create is performed. -/
theorem claim_C9_validation_before_persistence
    (validate_meta : GlobalMetadata → Bool)
    (materialize : Description → Except PyError DataFrame)
    (store_max : Int) (st stf : IndexBuilderState) (description : Description)
    (s del : Bool) (md : GlobalMetadata)
    (hvalid : description.valid = true)
    (hcon : construct_global_metadata (synced store_max del st) description none none =
      Except.ok (stf, md))
    (hvm : validate_meta md = false) :
    indexing validate_meta materialize store_max st description none false s del =
      { effects := [], outcome := Except.error PyError.schemaInvalid } := by
  simp [indexing, hvalid, pyNotData, hcon, hvm]

theorem claim_C9_validation_before_persistence_witness :
    (⟨["a"], true⟩ : Description).valid = true ∧
    construct_global_metadata (synced 0 false ⟨some 0⟩) ⟨["a"], true⟩ none none =
      Except.ok (⟨some 10000⟩, ⟨10000, [⟨10001, false⟩], false⟩) ∧
    (fun _ : GlobalMetadata => false) ⟨10000, [⟨10001, false⟩], false⟩ = false ∧
    indexing (fun _ => false) (fun _ => Except.error (PyError.other "net")) 0
        ⟨some 0⟩ ⟨["a"], true⟩ none false true false =
      { effects := [], outcome := Except.error PyError.schemaInvalid } :=
  ⟨rfl, by decide, rfl,
    claim_C9_validation_before_persistence (fun _ => false)
      (fun _ => Except.error (PyError.other "net")) 0 ⟨some 0⟩ ⟨some 10000⟩
      ⟨["a"], true⟩ true false ⟨10000, [⟨10001, false⟩], false⟩ rfl (by decide) rfl⟩

/-- Claim C1, counterexample: with two description files of which the first
fails schema validation, `bulk_indexing` ends with that record's exception and
performs no effect at all — in particular the second, well-formed record is
never processed, although processing it alone would create its document. -/
theorem claim_C1_counterexample :
    bulk_indexing (fun _ => true) (fun _ => Except.error (PyError.other "net")) 0
        false false ⟨some 0⟩ [(⟨["a"], false⟩, none), (⟨["b"], true⟩, none)] =
      ([], Except.error PyError.schemaInvalid) ∧
    (indexing (fun _ => true) (fun _ => Except.error (PyError.other "net")) 0
        ⟨some 0⟩ ⟨["b"], true⟩ none false false false).effects =
      [Effect.createDoc 10000] := by
  constructor <;> decide

/-- Claim C1 as amended: in `bulk_indexing`, the failure of one record aborts
the batch — the exception escaping `indexing` propagates out of the loop, so
the files after a failing one are not processed. -/
theorem claim_C1_bulk_aborts_on_failure
    (validate_meta : GlobalMetadata → Bool)
    (materialize : Description → Except PyError DataFrame)
    (store_max : Int) (q s : Bool) (st : IndexBuilderState)
    (description : Description) (data_at_path : Option DataFrame)
    (rest : List (Description × Option DataFrame)) (e : PyError)
    (h : (indexing validate_meta materialize store_max st description data_at_path
        q s false).outcome = Except.error e) :
    bulk_indexing validate_meta materialize store_max q s st
        ((description, data_at_path) :: rest) =
      ((indexing validate_meta materialize store_max st description data_at_path
          q s false).effects,
        Except.error e) := by
  simp [bulk_indexing, h]

theorem claim_C1_bulk_aborts_on_failure_witness :
    (indexing (fun _ => true) (fun _ => Except.error (PyError.other "net")) 0
        ⟨some 0⟩ ⟨["a"], false⟩ none false false false).outcome =
      Except.error PyError.schemaInvalid ∧
    bulk_indexing (fun _ => true) (fun _ => Except.error (PyError.other "net")) 0
        false false ⟨some 0⟩ [(⟨["a"], false⟩, none), (⟨["b"], true⟩, none)] =
      ((indexing (fun _ => true) (fun _ => Except.error (PyError.other "net")) 0
          ⟨some 0⟩ ⟨["a"], false⟩ none false false false).effects,
        Except.error PyError.schemaInvalid) :=
  ⟨by decide,
    claim_C1_bulk_aborts_on_failure (fun _ => true)
      (fun _ => Except.error (PyError.other "net")) 0 false false ⟨some 0⟩
      ⟨["a"], false⟩ none [(⟨["b"], true⟩, none)] PyError.schemaInvalid (by decide)⟩

theorem lookup_append_of_none {β : Type} :
    ∀ (l : List (String × β)) (k : String) (v : β),
      l.lookup k = none → (l ++ [(k, v)]).lookup k = some v := by
  intro l k v h
  induction l with
  | nil => simp [List.lookup]
  | cons p rest ih =>
      obtain ⟨k1, v1⟩ := p
      rw [List.cons_append]
      cases hk : (k == k1) with
      | true => simp [List.lookup, hk] at h
      | false =>
          simp only [List.lookup, hk] at h ⊢
          exact ih h

/-- Claim C6: `Augment.join` with a strategy name for which no joiner
implementation exists emits the warning and returns the left table unmodified,
never raising. -/
theorem claim_C6_join_no_strategy (registry : String → Option Joiner)
    (gen_meta : DataFrame → GlobalMetadata)
    (features : DataFrame → Option GlobalMetadata → Option GlobalMetadata)
    (st : AugmentState) (left_df right_df : DataFrame)
    (left_columns right_columns : List (List Int))
    (left_metadata right_metadata : Option GlobalMetadata) (joiner : String)
    (hreg : registry joiner = none)
    (hcache : st.joiners.lookup joiner = none) :
    (Augment.join registry gen_meta features st left_df right_df left_columns
        right_columns left_metadata right_metadata joiner).outcome =
      Except.ok left_df ∧
    (Augment.join registry gen_meta features st left_df right_df left_columns
        right_columns left_metadata right_metadata joiner).warned = true := by
  have hl : ((st.joiners ++ [(joiner, (none : Option Joiner))]).lookup joiner) =
      some none := lookup_append_of_none _ _ _ hcache
  constructor <;> simp [Augment.join, hcache, hreg, hl]

theorem claim_C6_join_no_strategy_witness :
    ((fun _ => none) : String → Option Joiner) "nope" = none ∧
    (⟨[]⟩ : AugmentState).joiners.lookup "nope" = none ∧
    ((Augment.join (fun _ => none) (fun _ => ⟨0, [], false⟩) (fun _ m => m) ⟨[]⟩
        ⟨["l"], []⟩ ⟨["r"], []⟩ [] [] none none "nope").outcome =
      Except.ok ⟨["l"], []⟩ ∧
    (Augment.join (fun _ => none) (fun _ => ⟨0, [], false⟩) (fun _ m => m) ⟨[]⟩
        ⟨["l"], []⟩ ⟨["r"], []⟩ [] [] none none "nope").warned = true) :=
  ⟨rfl, rfl,
    claim_C6_join_no_strategy (fun _ => none) (fun _ => ⟨0, [], false⟩) (fun _ m => m)
      ⟨[]⟩ ⟨["l"], []⟩ ⟨["r"], []⟩ [] [] none none "nope" rfl rfl⟩

/-- Claim C7: when `Augment.join` resolves a registered joiner, an exception
raised inside the joiner's `join` method propagates to the caller — it is not
caught or swallowed, unlike the no-strategy case. -/
theorem claim_C7_strategy_error_propagates (registry : String → Option Joiner)
    (gen_meta : DataFrame → GlobalMetadata)
    (features : DataFrame → Option GlobalMetadata → Option GlobalMetadata)
    (st : AugmentState) (left_df right_df : DataFrame)
    (left_columns right_columns : List (List Int))
    (left_metadata right_metadata : Option GlobalMetadata) (joiner : String)
    (j : Joiner) (e : PyError)
    (hreg : registry joiner = some j)
    (hcache : st.joiners.lookup joiner = none)
    (hj : ∀ a b lc rc m n, j.join a b lc rc m n = Except.error e) :
    (Augment.join registry gen_meta features st left_df right_df left_columns
        right_columns left_metadata right_metadata joiner).outcome =
      Except.error e ∧
    (Augment.join registry gen_meta features st left_df right_df left_columns
        right_columns left_metadata right_metadata joiner).warned = false := by
  have hl : ((st.joiners ++ [(joiner, some j)]).lookup joiner) = some (some j) :=
    lookup_append_of_none _ _ _ hcache
  constructor <;> simp [Augment.join, hcache, hreg, hl, hj]

theorem claim_C7_strategy_error_propagates_witness :
    ((fun _ => some (⟨fun _ _ _ _ _ _ => Except.error (PyError.other "boom")⟩ :
        Joiner)) : String → Option Joiner) "default" =
      some ⟨fun _ _ _ _ _ _ => Except.error (PyError.other "boom")⟩ ∧
    (⟨[]⟩ : AugmentState).joiners.lookup "default" = none ∧
    ((Augment.join
        (fun _ => some ⟨fun _ _ _ _ _ _ => Except.error (PyError.other "boom")⟩)
        (fun _ => ⟨0, [], false⟩) (fun _ m => m) ⟨[]⟩ ⟨["l"], []⟩ ⟨["r"], []⟩ [] []
        none none "default").outcome = Except.error (PyError.other "boom") ∧
    (Augment.join
        (fun _ => some ⟨fun _ _ _ _ _ _ => Except.error (PyError.other "boom")⟩)
        (fun _ => ⟨0, [], false⟩) (fun _ m => m) ⟨[]⟩ ⟨["l"], []⟩ ⟨["r"], []⟩ [] []
        none none "default").warned = false) :=
  ⟨rfl, rfl,
    claim_C7_strategy_error_propagates
      (fun _ => some ⟨fun _ _ _ _ _ _ => Except.error (PyError.other "boom")⟩)
      (fun _ => ⟨0, [], false⟩) (fun _ m => m) ⟨[]⟩ ⟨["l"], []⟩ ⟨["r"], []⟩ [] []
      none none "default" ⟨fun _ _ _ _ _ _ => Except.error (PyError.other "boom")⟩
      (PyError.other "boom") rfl rfl (fun _ _ _ _ _ _ => rfl)⟩

end Datamart
